import Mathlib

/-!
Shallow embedding of `src/metrics-middleware.js` (prometheus-api-metrics).

The middleware instruments HTTP requests: it classifies a completed request
to a route label (`_getRoute`), records three histogram observations
(`_handleResponse`), serves the metrics registry at a configured path
(`middleware`), and registers the metric definitions at bootstrap
(`module.exports`).  JavaScript values that may be `undefined` are modelled
with `Option`; JavaScript string truthiness (`undefined` and `""` are falsy)
is modelled by `truthy`; a thrown `TypeError` is modelled with `Except Unit`.
-/

set_option autoImplicit false

namespace PromApiMetrics

/-- JS truthiness of an optional string: `undefined` and `""` are falsy. -/
def truthy : Option String → Bool
  | none => false
  | some s => s != ""

/-- `req.swagger` (present only on swagger-routed frameworks); the code reads
its `apiPath` field. -/
structure SwaggerInfo where
  apiPath : Option String
  deriving DecidableEq, Repr

/-- `req.route` (present when the host framework matched a route); the code
reads its `path` field. -/
structure RouteInfo where
  path : String
  deriving DecidableEq, Repr

/-- The response object: `res.statusCode` and the `Content-Length` header
read by `res.get('Content-Length')` (`none` = header absent). -/
structure Response where
  statusCode : Nat
  contentLength : Option String
  deriving DecidableEq, Repr

/-- The request object fields read by the middleware.  `params` is
`req.params`: `none` when `typeof req.params !== 'object'`, otherwise the
key/value pairs in `Object.keys` iteration order.  `res` is `req.res`. -/
structure Request where
  method : String
  url : Option String
  baseUrl : Option String
  route : Option RouteInfo
  swagger : Option SwaggerInfo
  params : Option (List (String × String))
  contentLength : Option String
  res : Option Response
  deriving DecidableEq, Repr

/-! ### JS `parseInt(x) || 0` -/

/-- Whitespace skipped by JS `parseInt`. -/
def jsWhitespace (c : Char) : Bool :=
  c = ' ' || c = '\t' || c = '\n' || c = '\r' || c = '\x0b' || c = '\x0c'

/-- Hexadecimal digit test (for `parseInt`'s `0x` radix autodetection). -/
def isHexDigitChar (c : Char) : Bool :=
  ('0' ≤ c && c ≤ '9') || ('a' ≤ c && c ≤ 'f') || ('A' ≤ c && c ≤ 'F')

/-- Value of a hexadecimal digit. -/
def hexDigitVal (c : Char) : Nat :=
  if '0' ≤ c && c ≤ '9' then c.toNat - '0'.toNat
  else if 'a' ≤ c && c ≤ 'f' then c.toNat - 'a'.toNat + 10
  else c.toNat - 'A'.toNat + 10

/-- Decimal value of a digit list. -/
def digitsVal (ds : List Char) : Nat :=
  ds.foldl (fun n c => 10 * n + (c.toNat - '0'.toNat)) 0

/-- Hexadecimal value of a digit list. -/
def hexVal (ds : List Char) : Nat :=
  ds.foldl (fun n c => 16 * n + hexDigitVal c) 0

/-- JS `parseInt(s)` (radix unspecified): skip leading whitespace, optional
sign, `0x`/`0X` switches to hexadecimal, then the longest digit prefix;
`none` models `NaN`.  (The `$`-substitution quirks of `replace` and exotic
Unicode whitespace are outside the inputs the middleware meets.) -/
def jsParseInt (s : String) : Option Int :=
  let cs := s.data.dropWhile jsWhitespace
  let signed : Int × List Char :=
    match cs with
    | '-' :: rest => (-1, rest)
    | '+' :: rest => (1, rest)
    | _ => (1, cs)
  match signed.2 with
  | '0' :: x :: rest =>
    if x = 'x' ∨ x = 'X' then
      let hs := rest.takeWhile isHexDigitChar
      if hs = [] then none else some (signed.1 * (hexVal hs : Int))
    else
      some (signed.1 * (digitsVal ((('0' :: x :: rest)).takeWhile Char.isDigit) : Int))
  | cs1 =>
    let ds := cs1.takeWhile Char.isDigit
    if ds = [] then none else some (signed.1 * (digitsVal ds : Int))

/-- JS `parseInt(h) || 0` on an optional header value: absent or
non-numeric (`NaN`) gives `0`; a parsed `0` also gives `0` (same value). -/
def jsParseIntOr0 : Option String → Int
  | none => 0
  | some s =>
    match jsParseInt s with
    | none => 0
    | some v => v

/-! ### JS `String.prototype.replace` with a string pattern
(replaces only the first occurrence). -/

/-- Replace the leftmost occurrence of `pat` (non-empty) in a char list. -/
def replaceFirstAux (pat repl : List Char) : List Char → List Char
  | [] => []
  | c :: cs =>
    if List.isPrefixOf pat (c :: cs) then repl ++ (c :: cs).drop pat.length
    else c :: replaceFirstAux pat repl cs

/-- JS `s.replace(pat, repl)` with a string `pat`: only the first occurrence
is replaced; an empty `pat` matches at position 0. -/
def replaceFirst (s pat repl : String) : String :=
  if pat = "" then repl ++ s
  else ⟨replaceFirstAux pat.data repl.data s.data⟩

/-! ### `_getRoute` (metrics-middleware.js lines 116-147) -/

/-- The `if`/`else if` chain of `_getRoute` (lines 117-130): swagger's
`apiPath` wins, else express's `baseUrl + route.path` (dropping a `'/'`
route path), else restify's `url` / `route.path`. -/
def routeAfterChain (req : Request) : Option String :=
  match req.swagger with
  | some sw => sw.apiPath
  | none =>
    match req.route, req.baseUrl with
    | some rt, some b =>
      if b ≠ "" then (if rt.path ≠ "/" then some (b ++ rt.path) else some b)
      else if truthy req.url then some rt.path
      else some b
    | some rt, none =>
      if truthy req.url then some rt.path else none
    | none, b =>
      if truthy req.url && !(truthy b) then req.url else b

/-- The `req.params` loop body accumulated over the key list (lines
134-136): `route = route.replace(value, ':' + name)`.  Calling `.replace`
on an `undefined` route throws (`Except.error`); after one step the route
is always a string. -/
def replaceParams : List (String × String) → Option String → Except Unit (Option String)
  | [], route => .ok route
  | _ :: _, none => .error ()
  | p :: ps, some s => replaceParams ps (some (replaceFirst s p.2 (":" ++ p.1)))

/-- `if (typeof req.params === 'object') { Object.keys(...).forEach(...) }`
(lines 133-137). -/
def applyParams (params : Option (List (String × String))) (route : Option String) :
    Except Unit (Option String) :=
  match params with
  | none => .ok route
  | some ps => replaceParams ps route

/-- Pure form of the params loop on a string route. -/
def replaceParamsStr (ps : List (String × String)) (s : String) : String :=
  ps.foldl (fun acc p => replaceFirst acc p.2 (":" ++ p.1)) s

/-- The guard of lines 142-144: `!req.route && res && res.statusCode === 404`. -/
def notFound404 (req : Request) : Bool :=
  req.route.isNone &&
    (match req.res with
     | some r => r.statusCode == 404
     | none => false)

/-- `_getRoute(req)` (lines 116-147): route chain, params substitution
(which can throw), then the express no-route-404 guard returning
`undefined` (`none`). -/
def getRoute (req : Request) : Except Unit (Option String) :=
  match applyParams req.params (routeAfterChain req) with
  | .error e => .error e
  | .ok route => if notFound404 req then .ok none else .ok route

/-! ### `_handleResponse` (lines 103-114) -/

/-- The three histograms the middleware observes into. -/
inductive MetricId where
  | duration
  | requestSize
  | responseSize
  deriving DecidableEq, Repr

/-- One histogram observation: which histogram, the label tuple
`(method, route, code)`, and the observed value. -/
structure Observation where
  metric : MetricId
  method : String
  route : String
  code : Nat
  value : Int
  deriving DecidableEq, Repr

/-- `_handleResponse(req, res)` (lines 103-114): compute the response
length, call `_getRoute` (whose throw propagates), and `if (route)` — a
truthy route — record request size, duration (the timer's elapsed seconds,
here the parameter `elapsedSeconds`) and response size, all under the same
`(method, route, code)` labels, in that order.  The request size is
`req.metrics.contentLength`, set by `middleware` to
`parseInt(req.get('content-length')) || 0`. -/
def handleResponse (elapsedSeconds : Int) (req : Request) (res : Response) :
    Except Unit (List Observation) :=
  let responseLength := jsParseIntOr0 res.contentLength
  match getRoute req with
  | .error e => .error e
  | .ok none => .ok []
  | .ok (some route) =>
    if route ≠ "" then
      .ok
        [ { metric := .requestSize, method := req.method, route := route,
            code := res.statusCode, value := jsParseIntOr0 req.contentLength },
          { metric := .duration, method := req.method, route := route,
            code := res.statusCode, value := elapsedSeconds },
          { metric := .responseSize, method := req.method, route := route,
            code := res.statusCode, value := responseLength } ]
    else .ok []

/-! ### `middleware` (lines 77-101) -/

/-- `Prometheus.register.contentType` of the collaborator registry
(prom-client 11), set on the text snapshot response. -/
def prometheusContentType : String := "text/plain; version=0.0.4; charset=utf-8"

/-- Outcome of one full request through `middleware`: the text snapshot
(with its `Content-Type`), the JSON snapshot, or ordinary downstream
processing whose `finish` callback yields the given observations. -/
inductive Served where
  | textSnapshot (contentType : String)
  | jsonSnapshot
  | downstream (obs : Except Unit (List Observation))

/-- `middleware(req, res, next)` composed with the `finish` callback
(lines 77-101): `req.url === metricsRoute` serves the text snapshot and
returns; `req.url === metricsRoute + '.json'` serves the JSON snapshot and
returns; otherwise the request proceeds downstream and `_handleResponse`
runs on `finish`. -/
def processRequest (metricsRoute : String) (elapsedSeconds : Int)
    (req : Request) (res : Response) : Served :=
  if req.url = some metricsRoute then .textSnapshot prometheusContentType
  else if req.url = some (metricsRoute ++ ".json") then .jsonSnapshot
  else .downstream (handleResponse elapsedSeconds req res)

/-! ### Bootstrap (`module.exports`, lines 17-75) -/

/-- The module-level mutable `metricNames` object (lines 9-15). -/
structure MetricNames where
  http_request_duration_seconds : String
  app_version : String
  http_request_size_bytes : String
  http_response_size_bytes : String
  defaultMetricsPrefixName : String
  deriving DecidableEq, Repr

/-- Initial value of `metricNames` at module load. -/
def initialMetricNames : MetricNames :=
  { http_request_duration_seconds := "http_request_duration_seconds",
    app_version := "app_version",
    http_request_size_bytes := "http_request_size_bytes",
    http_response_size_bytes := "http_response_size_bytes",
    defaultMetricsPrefixName := "" }

/-- The options destructured from the factory argument that matter to
registration: `metricsPath` and `useUniqueHistogramName` (compared with
`=== true`). -/
structure Options where
  metricsPath : Option String
  useUniqueHistogramName : Bool
  deriving DecidableEq, Repr

/-- Process-wide mutable state touched by the factory: the shared
`metricNames` object, the prom-client default registry (registered metric
names in registration order), the `onExitEvent` guard and the module-level
`metricsRoute`. -/
structure ProcessState where
  metricNames : MetricNames
  registry : List String
  onExitEvent : Bool
  metricsRoute : Option String
  deriving DecidableEq, Repr

/-- State at module load: nothing registered yet. -/
def initialProcessState : ProcessState :=
  { metricNames := initialMetricNames, registry := [], onExitEvent := false,
    metricsRoute := none }

/-- `Prometheus.register.getSingleMetric(name) || new Histogram/Gauge(...)`:
register `name` only when no metric of that name exists yet. -/
def registerIfAbsent (reg : List String) (name : String) : List String :=
  if name ∈ reg then reg else reg ++ [name]

/-- One invocation of the exported factory (lines 17-75) as a state
transformer.  `projectName` is the host package name with `-` already
replaced by `_` (line 21).  With `useUniqueHistogramName === true` the
shared `metricNames` fields are prefixed in place with `projectName + '_'`
(lines 27-33); then the version gauge and the three histograms are
registered unless a metric of the (current) name already exists
(lines 37-68); `metricsRoute = metricsPath || '/metrics'` (line 25) and the
exit hook is installed once (lines 70-72). -/
def bootstrap (projectName : String) (opts : Options) (s : ProcessState) :
    ProcessState :=
  let metricsRoute :=
    match opts.metricsPath with
    | some p => if p ≠ "" then p else "/metrics"
    | none => "/metrics"
  let mn :=
    if opts.useUniqueHistogramName then
      { http_request_duration_seconds :=
          projectName ++ "_" ++ s.metricNames.http_request_duration_seconds,
        app_version := projectName ++ "_" ++ s.metricNames.app_version,
        http_request_size_bytes :=
          projectName ++ "_" ++ s.metricNames.http_request_size_bytes,
        http_response_size_bytes :=
          projectName ++ "_" ++ s.metricNames.http_response_size_bytes,
        defaultMetricsPrefixName := projectName ++ "_" }
    else s.metricNames
  let reg := registerIfAbsent s.registry mn.app_version
  let reg := registerIfAbsent reg mn.http_request_duration_seconds
  let reg := registerIfAbsent reg mn.http_request_size_bytes
  let reg := registerIfAbsent reg mn.http_response_size_bytes
  { metricNames := mn, registry := reg, onExitEvent := true,
    metricsRoute := some metricsRoute }

/-- `true` iff an `Except`-modelled computation did not throw. -/
def doesNotThrow {α : Type} : Except Unit α → Bool
  | .ok _ => true
  | .error _ => false

/-! ### Helper lemmas -/

theorem truthy_some_iff (o : Option String) :
    truthy o = true ↔ ∃ s, o = some s ∧ s ≠ "" := by
  cases o <;> simp [truthy]

theorem replaceParams_ok (ps : List (String × String)) (s : String) :
    replaceParams ps (some s) = .ok (some (replaceParamsStr ps s)) := by
  induction ps generalizing s with
  | nil => rfl
  | cons p ps ih => simp [replaceParams, replaceParamsStr, List.foldl_cons, ih]

theorem string_append_ne_of_ne_empty (a b : String) (hb : b ≠ "") : a ++ b ≠ a := by
  intro h
  have h2 := congrArg String.length h
  rw [String.length_append] at h2
  have hb2 : b.length ≠ 0 := by
    intro h0
    exact hb (String.ext (List.length_eq_zero.mp h0))
  omega

theorem string_append_right_inj (a b c : String) (h : a ++ b = a ++ c) : b = c := by
  apply String.ext
  have h2 := congrArg String.data h
  simp only [String.data_append] at h2
  exact List.append_cancel_left h2

theorem applyParams_ok_of_some (params : Option (List (String × String))) (s : String) :
    ∃ t, applyParams params (some s) = .ok (some t) := by
  cases params with
  | none => exact ⟨s, rfl⟩
  | some ps => exact ⟨replaceParamsStr ps s, by simp [applyParams, replaceParams_ok]⟩

theorem routeAfterChain_isSome_of_url (req : Request)
    (hsw : req.swagger = none) (hrt : req.route = none)
    (hu : truthy req.url = true) :
    ∃ s, routeAfterChain req = some s := by
  obtain ⟨u, hu', hune⟩ := (truthy_some_iff _).1 hu
  cases hb : req.baseUrl with
  | none => exact ⟨u, by simp [routeAfterChain, hsw, hrt, hb, hu, hu', truthy, hune]⟩
  | some b =>
    by_cases hbe : b = ""
    · exact ⟨u, by simp [routeAfterChain, hsw, hrt, hb, hbe, hu, hu', truthy, hune]⟩
    · exact ⟨b, by simp [routeAfterChain, hsw, hrt, hb, truthy, hbe, bne_iff_ne]⟩

/-! ### Claim theorems -/

/-- C1: for a completed request with no framework-resolved route (no
`req.route`, no swagger descriptor) whose final status code is 404,
`_getRoute` returns `undefined` ("no label") and `_handleResponse`
records no histogram observation. -/
theorem no_route_404_skips_recording (req : Request) (res0 : Response) (e : Int)
    (hsw : req.swagger = none) (hrt : req.route = none)
    (hu : truthy req.url = true)
    (hres : req.res = some res0) (h404 : res0.statusCode = 404) :
    getRoute req = .ok none ∧ handleResponse e req res0 = .ok [] := by
  obtain ⟨s, hs⟩ := routeAfterChain_isSome_of_url req hsw hrt hu
  obtain ⟨t, ht⟩ := by
    have := applyParams_ok_of_some req.params s
    rwa [← hs] at this
  have hguard : notFound404 req = true := by simp [notFound404, hrt, hres, h404]
  have hgr : getRoute req = .ok none := by simp [getRoute, ht, hguard]
  exact ⟨hgr, by simp [handleResponse, hgr]⟩

/-- Express request with an unresolved route finishing in 404
(`GET /nope`): the witness instance for C1. -/
def reqNoRoute404 : Request :=
  { method := "GET", url := some "/nope", baseUrl := some "", route := none,
    swagger := none, params := some [], contentLength := none,
    res := some ⟨404, none⟩ }

theorem no_route_404_skips_recording_witness :
    getRoute reqNoRoute404 = .ok none ∧
      handleResponse 3 reqNoRoute404 ⟨404, none⟩ = .ok [] :=
  no_route_404_skips_recording reqNoRoute404 ⟨404, none⟩ 3 rfl rfl rfl rfl rfl

/-- Request whose route pattern contains the parameter value `"42"` twice
(`baseUrl = "/v"`, `route.path = "/42/42"`, `params = {id: "42"}`). -/
def reqDoubleParamValue : Request :=
  { method := "GET", url := some "/v/42/42", baseUrl := some "/v",
    route := some ⟨"/42/42"⟩, swagger := none,
    params := some [("id", "42")], contentLength := none,
    res := some ⟨200, none⟩ }

/-- C2 counterexample: on `reqDoubleParamValue` the claim predicts the
label `"/v/:id/:id"` (every literal occurrence of the value `"42"`
replaced by `:id`), but `_getRoute` uses JavaScript's
`String.prototype.replace` with a string pattern, which replaces only the
first occurrence, yielding `"/v/:id/42"`. -/
theorem param_replacement_only_first_occurrence :
    getRoute reqDoubleParamValue = .ok (some "/v/:id/42") ∧
      ("/v/:id/42" : String) ≠ "/v/:id/:id" :=
  ⟨rfl, by decide⟩

/-- C2 amended: for every completed request whose host framework resolved
a route pattern — whichever pattern the classifier's source chain selects
(swagger `apiPath`, base path + route path, or route path over raw URL) —
and which supplied a parameter map, outside the separately claimed
no-route-404 guard case, the recorded route label equals that pattern
with, for each parameter in map order, the FIRST literal occurrence of
its concrete value replaced by `:parameterName`. -/
theorem param_replacement_first_occurrence (req : Request)
    (ps : List (String × String)) (pat : String)
    (hchain : routeAfterChain req = some pat)
    (hps : req.params = some ps)
    (hguard : notFound404 req = false) :
    getRoute req = .ok (some (replaceParamsStr ps pat)) := by
  simp [getRoute, applyParams, hps, hchain, replaceParams_ok, hguard]

/-- Express app-level request `GET /users/42` matched as `/users/:id`
(empty `baseUrl`), with `id = 42` supplied. -/
def reqUsersAppLevel : Request :=
  { method := "GET", url := some "/users/42", baseUrl := some "",
    route := some ⟨"/users/:id"⟩, swagger := none,
    params := some [("id", "42")], contentLength := none,
    res := some ⟨200, none⟩ }

theorem param_replacement_first_occurrence_witness :
    getRoute reqUsersAppLevel =
        .ok (some (replaceParamsStr [("id", "42")] "/users/:id")) ∧
      getRoute reqDoubleParamValue =
        .ok (some (replaceParamsStr [("id", "42")] ("/v" ++ "/42/42"))) :=
  ⟨param_replacement_first_occurrence reqUsersAppLevel [("id", "42")]
      "/users/:id" rfl rfl rfl,
    param_replacement_first_occurrence reqDoubleParamValue [("id", "42")]
      ("/v" ++ "/42/42") rfl rfl rfl⟩

/-- Request with no matched route but a truthy `baseUrl` (`"/api"`) and a
raw URL `"/real/url"`, finishing in 500. -/
def reqTruthyBaseNoRoute : Request :=
  { method := "GET", url := some "/real/url", baseUrl := some "/api",
    route := none, swagger := none, params := none, contentLength := none,
    res := some ⟨500, none⟩ }

/-- C7 counterexample: on `reqTruthyBaseNoRoute` (no resolved route,
status 500) the claim predicts the raw URL `"/real/url"` as label, but
`_getRoute` keeps the truthy `req.baseUrl` (`"/api"`): the `url` branch
requires `!route`, i.e. a falsy `baseUrl`. -/
theorem no_route_label_is_base_url_not_raw_url :
    getRoute reqTruthyBaseNoRoute = .ok (some "/api") ∧
      ("/api" : String) ≠ "/real/url" :=
  ⟨rfl, by decide⟩

/-- C7 amended: with no resolved route (no `req.route`, no swagger
descriptor), an absent or empty base path, an absent or empty parameter
map, a non-empty raw URL and a non-404 final status, the raw URL is the
recorded label, verbatim. -/
theorem no_route_non404_uses_raw_url (req : Request) (res0 : Response) (u : String)
    (hsw : req.swagger = none) (hrt : req.route = none)
    (hb : req.baseUrl = none ∨ req.baseUrl = some "")
    (hu : req.url = some u) (hune : u ≠ "")
    (hp : req.params = none ∨ req.params = some [])
    (hres : req.res = some res0) (hcode : res0.statusCode ≠ 404) :
    getRoute req = .ok (some u) := by
  have hchain : routeAfterChain req = some u := by
    rcases hb with hb | hb <;>
      simp [routeAfterChain, hsw, hrt, hb, hu, truthy, hune]
  have hguard : notFound404 req = false := by
    simp [notFound404, hres, hcode]
  rcases hp with hp | hp <;>
    simp [getRoute, applyParams, hp, hchain, replaceParams, hguard]

/-- Restify-style request: no baseUrl, no matched route, raw URL only. -/
def reqRawUrlOnly : Request :=
  { method := "GET", url := some "/some/raw/url", baseUrl := none,
    route := none, swagger := none, params := none, contentLength := none,
    res := some ⟨500, none⟩ }

theorem no_route_non404_uses_raw_url_witness :
    getRoute reqRawUrlOnly = .ok (some "/some/raw/url") :=
  no_route_non404_uses_raw_url reqRawUrlOnly ⟨500, none⟩ "/some/raw/url"
    rfl rfl (Or.inl rfl) rfl (by decide) (Or.inl rfl) rfl (by decide)

/-- C8: whenever `req.swagger` is present and carries an `apiPath`, the
route chain selects that pattern, with priority over `baseUrl`,
`route.path` and `url`, which are all ignored (the theorem holds for every
value of those fields). -/
theorem swagger_api_path_has_priority (req : Request) (sw : SwaggerInfo) (p : String)
    (hsw : req.swagger = some sw) (hp : sw.apiPath = some p) :
    routeAfterChain req = some p := by
  simp [routeAfterChain, hsw, hp]

/-- Swagger request that also carries competing express-style metadata. -/
def reqSwagger : Request :=
  { method := "GET", url := some "/pets/7", baseUrl := some "/base",
    route := some ⟨"/other"⟩, swagger := some ⟨some "/pets/{id}"⟩,
    params := none, contentLength := none, res := some ⟨200, none⟩ }

theorem swagger_api_path_has_priority_witness :
    routeAfterChain reqSwagger = some "/pets/{id}" :=
  swagger_api_path_has_priority reqSwagger ⟨some "/pets/{id}"⟩ "/pets/{id}" rfl rfl

/-- C9: with no swagger descriptor, a non-empty base path and a matched
route, the recorded label is the concatenation `baseUrl ++ route.path`,
except that a route path of exactly `"/"` is dropped, leaving the base
path alone (stated on `_getRoute` with an absent or empty parameter map,
so that the later parameter-substitution step is the identity). -/
theorem base_path_route_concatenation (req : Request) (b : String) (rt : RouteInfo)
    (hsw : req.swagger = none) (hb : req.baseUrl = some b) (hbne : b ≠ "")
    (hrt : req.route = some rt)
    (hp : req.params = none ∨ req.params = some []) :
    getRoute req = .ok (some (if rt.path = "/" then b else b ++ rt.path)) := by
  have hchain : routeAfterChain req = some (if rt.path = "/" then b else b ++ rt.path) := by
    by_cases h : rt.path = "/" <;> simp [routeAfterChain, hsw, hb, hrt, hbne, h]
  have hguard : notFound404 req = false := by simp [notFound404, hrt]
  rcases hp with hp | hp <;>
    simp [getRoute, applyParams, hp, hchain, replaceParams, hguard]

/-- Express router-level request: `baseUrl = "/v1"`, `route.path = "/users"`. -/
def reqBasePlusRoute : Request :=
  { method := "GET", url := some "/v1/users", baseUrl := some "/v1",
    route := some ⟨"/users"⟩, swagger := none, params := none,
    contentLength := none, res := some ⟨200, none⟩ }

/-- Express router-level request whose matched route path is exactly `/`. -/
def reqBasePlusRootRoute : Request :=
  { method := "GET", url := some "/v1", baseUrl := some "/v1",
    route := some ⟨"/"⟩, swagger := none, params := none,
    contentLength := none, res := some ⟨200, none⟩ }

theorem base_path_route_concatenation_witness :
    getRoute reqBasePlusRoute =
        .ok (some (if ("/users" : String) = "/" then "/v1" else "/v1" ++ "/users")) ∧
      getRoute reqBasePlusRootRoute =
        .ok (some (if ("/" : String) = "/" then "/v1" else "/v1" ++ "/")) :=
  ⟨base_path_route_concatenation reqBasePlusRoute "/v1" ⟨"/users"⟩ rfl rfl
      (by decide) rfl (Or.inl rfl),
    base_path_route_concatenation reqBasePlusRootRoute "/v1" ⟨"/"⟩ rfl rfl
      (by decide) rfl (Or.inl rfl)⟩

/-- Request with no routing metadata at all but a non-empty parameter map:
`route` stays `undefined` through the chain and the params loop calls
`.replace` on `undefined`. -/
def reqNoSourceWithParams : Request :=
  { method := "GET", url := none, baseUrl := none, route := none,
    swagger := none, params := some [("id", "42")], contentLength := none,
    res := some ⟨500, none⟩ }

/-- C4 counterexample: on `reqNoSourceWithParams` the completion-time
recording logic throws (a `TypeError` from
`undefined.replace(...)` inside `_getRoute`), so the route classifier is
not total and the exception escapes `_handleResponse` into the host's
`finish` handling. -/
theorem recording_can_throw :
    handleResponse 0 reqNoSourceWithParams ⟨500, none⟩ = .error () := rfl

/-- C4 amended: the completion-time recording logic never throws on every
request in which the routing chain yields a string label (for instance
whenever the raw URL is present and non-empty and the swagger descriptor,
when present, carries a path), or in which the parameter map is absent or
empty; only the remaining corner — no candidate label and a non-empty
parameter map — throws. -/
theorem recording_total_when_chain_labels (req : Request) (res0 : Response) (e : Int)
    (h : (routeAfterChain req).isSome = true ∨
      req.params = none ∨ req.params = some []) :
    doesNotThrow (handleResponse e req res0) = true := by
  have happ : ∃ r, applyParams req.params (routeAfterChain req) = .ok r := by
    rcases h with h | h | h
    · obtain ⟨s, hs⟩ := Option.isSome_iff_exists.1 h
      rw [hs]
      obtain ⟨t, ht⟩ := applyParams_ok_of_some req.params s
      exact ⟨some t, ht⟩
    · exact ⟨routeAfterChain req, by simp [applyParams, h]⟩
    · exact ⟨routeAfterChain req, by simp [applyParams, h, replaceParams]⟩
  obtain ⟨r, hr⟩ := happ
  have hgr : ∃ r2, getRoute req = .ok r2 := by
    by_cases hg : notFound404 req = true
    · exact ⟨none, by simp [getRoute, hr, hg]⟩
    · exact ⟨r, by simp [getRoute, hr, hg]⟩
  obtain ⟨r2, hr2⟩ := hgr
  cases r2 with
  | none => simp [handleResponse, hr2, doesNotThrow]
  | some s =>
    by_cases hse : s = "" <;> simp [handleResponse, hr2, hse, doesNotThrow]

theorem recording_total_when_chain_labels_witness :
    doesNotThrow (handleResponse 0 reqRawUrlOnly ⟨500, none⟩) = true :=
  recording_total_when_chain_labels reqRawUrlOnly ⟨500, none⟩ 0
    (Or.inr (Or.inl rfl))

/-- C6: when `_getRoute` returns a truthy label `r`, `_handleResponse`
records exactly three observations — request size, duration, response
size, in that order — all under the identical label tuple
`(method, r, statusCode)`; the request-size value is
`parseInt(req content-length) || 0` and the response-size value is
`parseInt(res Content-Length) || 0`, and that parse yields `0` on an
absent or non-numeric header. -/
theorem three_observations_same_labels (req : Request) (res0 : Response)
    (e : Int) (r : String)
    (h : getRoute req = .ok (some r)) (hr : r ≠ "") :
    handleResponse e req res0 =
        .ok
          [ { metric := .requestSize, method := req.method, route := r,
              code := res0.statusCode, value := jsParseIntOr0 req.contentLength },
            { metric := .duration, method := req.method, route := r,
              code := res0.statusCode, value := e },
            { metric := .responseSize, method := req.method, route := r,
              code := res0.statusCode, value := jsParseIntOr0 res0.contentLength } ] ∧
      jsParseIntOr0 none = 0 ∧
      ∀ s, jsParseInt s = none → jsParseIntOr0 (some s) = 0 := by
  refine ⟨by simp [handleResponse, h, hr], rfl, ?_⟩
  intro s hs
  simp [jsParseIntOr0, hs]

/-- Express app-level request `GET /users/42` matched as `/users/:id`,
content-length 120, finishing 200 with response Content-Length 340. -/
def reqUsers42 : Request :=
  { method := "GET", url := some "/users/42", baseUrl := some "",
    route := some ⟨"/users/:id"⟩, swagger := none,
    params := some [("id", "42")], contentLength := some "120",
    res := some ⟨200, some "340"⟩ }

theorem three_observations_same_labels_witness :
    handleResponse 3 reqUsers42 ⟨200, some "340"⟩ =
      .ok
        [ { metric := .requestSize, method := "GET", route := "/users/:id",
            code := 200, value := 120 },
          { metric := .duration, method := "GET", route := "/users/:id",
            code := 200, value := 3 },
          { metric := .responseSize, method := "GET", route := "/users/:id",
            code := 200, value := 340 } ] :=
  (three_observations_same_labels reqUsers42 ⟨200, some "340"⟩ 3 "/users/:id"
    rfl (by decide)).1

/-- C5: a request whose URL is exactly the configured metrics path is
served the text snapshot with the registry's content type, terminating the
request with no downstream processing and no observation; a request whose
URL is the metrics path followed by the literal `.json` suffix is served
the structured snapshot instead. -/
theorem metrics_endpoint_serves_snapshots (mr : String) (req : Request)
    (res0 : Response) (e : Int) :
    (req.url = some mr →
      processRequest mr e req res0 = .textSnapshot prometheusContentType) ∧
    (req.url = some (mr ++ ".json") →
      processRequest mr e req res0 = .jsonSnapshot) := by
  constructor
  · intro h
    simp [processRequest, h]
  · intro h
    have hne : mr ++ ".json" ≠ mr := string_append_ne_of_ne_empty mr ".json" (by decide)
    simp [processRequest, h, hne]

/-- A `GET /metrics` request (default path). -/
def reqMetrics : Request :=
  { method := "GET", url := some "/metrics", baseUrl := some "",
    route := none, swagger := none, params := some [], contentLength := none,
    res := some ⟨200, none⟩ }

/-- A `GET /metrics.json` request (default path). -/
def reqMetricsJson : Request :=
  { method := "GET", url := some "/metrics.json", baseUrl := some "",
    route := none, swagger := none, params := some [], contentLength := none,
    res := some ⟨200, none⟩ }

theorem metrics_endpoint_serves_snapshots_witness :
    processRequest "/metrics" 0 reqMetrics ⟨200, none⟩ =
        .textSnapshot prometheusContentType ∧
      processRequest "/metrics" 0 reqMetricsJson ⟨200, none⟩ = .jsonSnapshot :=
  ⟨(metrics_endpoint_serves_snapshots "/metrics" reqMetrics ⟨200, none⟩ 0).1 rfl,
    (metrics_endpoint_serves_snapshots "/metrics" reqMetricsJson ⟨200, none⟩ 0).2 rfl⟩

/-- C10: metrics-endpoint matching is exact string equality on the full
request URL: a URL that is the metrics path followed by any non-empty
suffix other than the literal `.json` (a query string, a trailing slash,
…) is not served a snapshot and goes downstream, instrumented like any
ordinary request. -/
theorem metrics_endpoint_match_is_exact (mr extra : String) (req : Request)
    (res0 : Response) (e : Int)
    (hurl : req.url = some (mr ++ extra)) (h1 : extra ≠ "") (h2 : extra ≠ ".json") :
    processRequest mr e req res0 = .downstream (handleResponse e req res0) := by
  have hne1 : mr ++ extra ≠ mr := string_append_ne_of_ne_empty mr extra h1
  have hne2 : mr ++ extra ≠ mr ++ ".json" := by
    intro h
    exact h2 (string_append_right_inj mr extra ".json" h)
  simp [processRequest, hurl, hne1, hne2]

/-- A `GET /metrics?x=1` request (query string after the metrics path). -/
def reqMetricsQuery : Request :=
  { method := "GET", url := some "/metrics?x=1", baseUrl := some "",
    route := none, swagger := none, params := some [], contentLength := none,
    res := some ⟨200, none⟩ }

theorem metrics_endpoint_match_is_exact_witness :
    processRequest "/metrics" 0 reqMetricsQuery ⟨200, none⟩ =
      .downstream (handleResponse 0 reqMetricsQuery ⟨200, none⟩) :=
  metrics_endpoint_match_is_exact "/metrics" "?x=1" reqMetricsQuery ⟨200, none⟩ 0
    rfl (by decide) (by decide)

/-- C3: the failing input for bootstrap idempotence.  With
`useUniqueHistogramName: true` the factory prefixes the shared
`metricNames` object in place on every call, so a second invocation looks
up and registers doubly-prefixed names (`my_app_my_app_*`): the registry
ends with eight metrics — two generations per declared metric — instead of
one metric per declared name, and the second invocation did not reuse the
first invocation's definitions.  With the flag unset, a second invocation
is idempotent, as the claim states. -/
theorem bootstrap_unique_name_double_prefix :
    (bootstrap "my_app" ⟨none, true⟩
        (bootstrap "my_app" ⟨none, true⟩ initialProcessState)).registry =
      [ "my_app_app_version",
        "my_app_http_request_duration_seconds",
        "my_app_http_request_size_bytes",
        "my_app_http_response_size_bytes",
        "my_app_my_app_app_version",
        "my_app_my_app_http_request_duration_seconds",
        "my_app_my_app_http_request_size_bytes",
        "my_app_my_app_http_response_size_bytes" ] ∧
    (bootstrap "my_app" ⟨none, false⟩
        (bootstrap "my_app" ⟨none, false⟩ initialProcessState)).registry =
      (bootstrap "my_app" ⟨none, false⟩ initialProcessState).registry :=
  ⟨by decide, by decide⟩

end PromApiMetrics
